import Mathlib

/-!
Shallow embedding of the srs-enb-ue charm (src/charm.py, src/utils.py,
src/linux_service.py).

External effects are modelled by an explicit environment `Env`:
`Env.run` gives, for each shell command string, the pair
(returncode, stdout) that `subprocess.run` would observe, and
`Env.ifaceAddr` gives the IPv4 address that `netifaces` reports for an
interface (`none` models a missing interface, for which netifaces raises).
Charm-level effects (the rendered unit files, the unit status, and the
trace of external calls performed) are threaded through a state `St`,
and Python exceptions are modelled with `Except PyErr`, so every helper
of the source becomes a function `M α = Env → St → Except PyErr α × St`.
-/

/-- Python exceptions raised by the embedded helpers: `CalledProcessError`
(raised by `subprocess.CompletedProcess.check_returncode` on a nonzero
exit status), I/O errors from `open`, and the `ValueError`/`KeyError`
family raised by `netifaces` lookups. -/
inductive PyErr where
  | calledProcessError (returncode : Int)
  | ioError
  | valueError
deriving DecidableEq

/-- One observable external call made by the charm: a shell command handed
to `subprocess.run`, a `netifaces` interface lookup, or a `time.sleep`
(no code path of src/ ever emits a sleep; the constructor exists so that
"the code never sleeps" is expressible). -/
inductive Call where
  | sh (cmd : String)
  | ifaceQuery (iface : String)
  | sleep (seconds : Nat)
deriving DecidableEq

/-- The ops unit status values used by the charm. -/
inductive Status where
  | active (msg : String)
  | maintenance (msg : String)
  | blocked (msg : String)
deriving DecidableEq

/-- The external world: shell command behaviour and interface addresses.
`run cmd = (returncode, stdout)`; `ifaceAddr i = none` models an
interface unknown to netifaces, `some ""` an interface with an empty
(falsy) address; `defaultIfaceIp` is the address on the default route
interface, if any. An `Env` is a pure function, modelling the fact that
a single event handler runs to completion against a fixed world. -/
structure Env where
  run : String → Int × String
  ifaceAddr : String → Option String
  defaultIfaceIp : Option String

/-- Mutable state visible to the embedded code: the file system (path to
contents), the charm unit status, and the trace of external calls made so
far. -/
structure St where
  fs : String → Option String
  status : Status
  trace : List Call

/-- The effect monad of the embedding. -/
def M (α : Type) : Type := Env → St → Except PyErr α × St

/-- Return for `M`. -/
def M.pure {α : Type} (a : α) : M α := fun _ s => (.ok a, s)

/-- Sequencing for `M`; an error short-circuits, keeping the state reached
so far (Python exceptions do not roll back file writes or issued
commands). -/
def M.bind {α β : Type} (x : M α) (f : α → M β) : M β := fun env s =>
  match x env s with
  | (.ok a, s') => f a env s'
  | (.error e, s') => (.error e, s')

/-- try/except CalledProcessError: runs the handler on that error only. -/
def M.catchCPE {α : Type} (x : M α) (handler : Int → M α) : M α := fun env s =>
  match x env s with
  | (.ok a, s') => (.ok a, s')
  | (.error (.calledProcessError rc), s') => handler rc env s'
  | (.error e, s') => (.error e, s')

/-- utils.shell: runs a command with `subprocess.run`, then
`check_returncode` raises `CalledProcessError` on a nonzero exit status;
on success the stdout text is returned. The command is recorded in the
trace in either case. -/
def shell (command : String) : M String := fun env s =>
  let response := env.run command
  let s' : St := { s with trace := s.trace ++ [.sh command] }
  if response.1 = 0 then (.ok response.2, s')
  else (.error (.calledProcessError response.1), s')

/-- Model of `open(path).read()`: returns the file contents, raising an
I/O error when the file is absent. -/
def readFile (path : String) : M String := fun _ s =>
  match s.fs path with
  | some content => (.ok content, s)
  | none => (.error .ioError, s)

/-- Model of `open(path, "w").write(content)`. -/
def writeFile (path content : String) : M Unit := fun _ s =>
  (.ok (), { s with fs := fun q => if q = path then some content else s.fs q })

/-- Model of `self.unit.status = value`. -/
def setStatus (v : Status) : M Unit := fun _ s =>
  (.ok (), { s with status := v })

/-- Python str() of an Optional[str] as interpolated by an f-string:
`None` renders as "None". -/
def pyOptStr : Option String → String
  | some v => v
  | none => "None"

/-- Python truthiness of an Optional[str]: `None` and the empty string
are falsy. -/
def pyTruthy : Option String → Bool
  | some v => !v.data.isEmpty
  | none => false

/-- Model of json.dumps for a plain (quote-free) address string. -/
def jsonDumps (v : String) : String := "\"" ++ v ++ "\""

/-- Model of json.loads for a JSON string literal: strips the quotes. -/
def jsonLoads (v : String) : String := ⟨(v.data.drop 1).dropLast⟩

/-- The f-string `f"systemctl {action} {service_name}"` used by
utils._systemctl and utils.service_active. -/
def systemctlCmd (action service_name : String) : String :=
  "systemctl " ++ action ++ " " ++ service_name

/-- utils.service_active: runs `systemctl is-active NAME` through `shell`
and compares the output with "active\n". A nonzero exit status of the
query makes `shell` raise, and the exception propagates. -/
def service_active (service_name : String) : M Bool :=
  M.bind (shell (systemctlCmd "is-active" service_name)) (fun response =>
    M.pure (response == "active\n"))

/-- utils._systemctl. -/
def utilsSystemctl (action service_name : String) : M Unit :=
  M.bind (shell (systemctlCmd action service_name)) (fun _ => M.pure ())

/-- utils.service_start. -/
def service_start (service_name : String) : M Unit :=
  utilsSystemctl "start" service_name

/-- utils.service_restart. -/
def service_restart (service_name : String) : M Unit :=
  utilsSystemctl "restart" service_name

/-- utils.service_stop. -/
def service_stop (service_name : String) : M Unit :=
  utilsSystemctl "stop" service_name

/-- utils.service_enable. -/
def service_enable (service_name : String) : M Unit :=
  utilsSystemctl "enable" service_name

/-- utils.systemctl_daemon_reload. -/
def systemctl_daemon_reload : M Unit :=
  M.bind (shell "systemctl daemon-reload") (fun _ => M.pure ())

/-- utils.ip_from_default_iface: the address bound to the default-route
interface, if one exists (a pure netifaces query in the model). -/
def ip_from_default_iface : Env → Option String := fun env => env.defaultIfaceIp

/-- utils.get_iface_ip_address: `netifaces.ifaddresses(iface)[AF_INET][0]["addr"]`
raises for an interface netifaces does not know; a falsy (empty) address
yields `None` after the logged error; otherwise the address is returned.
The lookup is recorded in the trace. -/
def get_iface_ip_address (iface : String) : M (Option String) := fun env s =>
  let s' : St := { s with trace := s.trace ++ [.ifaceQuery iface] }
  match env.ifaceAddr iface with
  | none => (.error .valueError, s')
  | some addr => if addr = "" then (.ok none, s') else (.ok (some addr), s')

/-- linux_service.SERVICE_TEMPLATE. -/
def SERVICE_TEMPLATE : String := "./templates/service.j2"

/-- linux_service.Service. -/
structure Service where
  name : String

/-- linux_service.Service._systemctl. -/
def Service.systemctlRun (svc : Service) (action : String) : M String :=
  shell ("systemctl " ++ action ++ " " ++ svc.name)

/-- linux_service.Service.is_active: like utils.service_active, but the
`systemctl is-active` invocation is wrapped in
try/except CalledProcessError, which returns False. -/
def Service.is_active (svc : Service) : M Bool :=
  M.catchCPE
    (M.bind (svc.systemctlRun "is-active") (fun response =>
      M.pure (response == "active\n")))
    (fun _ => M.pure false)

/-- Model of jinja2 Template.render for the unit-file template of
linux_service.Service.create: a deterministic substitution of the
command, user, description and optional post-stop command placeholders. -/
def renderServiceTemplate (template command user description : String)
    (exec_stop_post : Option String) : String :=
  String.replace
    (String.replace
      (String.replace
        (String.replace template "\x7b\x7b command \x7d\x7d" command)
        "\x7b\x7b user \x7d\x7d" user)
      "\x7b\x7b description \x7d\x7d" description)
    "\x7b\x7b exec_stop_post \x7d\x7d" (pyOptStr exec_stop_post)

/-- linux_service.Service.create: reads the template, renders it, writes
the unit file at /etc/systemd/system/NAME.service and reloads the
daemon. -/
def Service.create (svc : Service) (command user description : String)
    (exec_stop_post : Option String) : M Unit :=
  M.bind (readFile SERVICE_TEMPLATE) (fun template =>
  M.bind (writeFile ("/etc/systemd/system/" ++ svc.name ++ ".service")
    (renderServiceTemplate template command user description exec_stop_post)) (fun _ =>
  systemctl_daemon_reload))

/-- charm.py constants. -/
def CONFIG_PATH : String := "/config"

/-- charm.py CONFIG_PATHS dictionary. -/
def CONFIG_PATHS (key : String) : String :=
  if key = "drb" then CONFIG_PATH ++ "/drb.conf"
  else if key = "rr" then CONFIG_PATH ++ "/rr.conf"
  else if key = "sib" then CONFIG_PATH ++ "/sib.conf"
  else if key = "sib.mbsfn" then CONFIG_PATH ++ "/sib.mbsfn.conf"
  else if key = "ue" then CONFIG_PATH ++ "/ue.conf"
  else ""

/-- charm.py SRS_ENB_SERVICE. -/
def SRS_ENB_SERVICE : String := "srsenb"

/-- charm.py SRS_ENB_BINARY. -/
def SRS_ENB_BINARY : String := "/build/srsenb/src/srsenb"

/-- charm.py SRS_ENB_SERVICE_TEMPLATE. -/
def SRS_ENB_SERVICE_TEMPLATE : String := "./templates/srsenb.service"

/-- charm.py SRS_ENB_SERVICE_PATH. -/
def SRS_ENB_SERVICE_PATH : String := "/etc/systemd/system/srsenb.service"

/-- charm.py SRS_UE_SERVICE. -/
def SRS_UE_SERVICE : String := "srsue"

/-- charm.py SRS_UE_BINARY. -/
def SRS_UE_BINARY : String := "/build/srsue/src/srsue"

/-- charm.py SRS_UE_SERVICE_TEMPLATE. -/
def SRS_UE_SERVICE_TEMPLATE : String := "./templates/srsue.service"

/-- charm.py SRS_UE_SERVICE_PATH. -/
def SRS_UE_SERVICE_PATH : String := "/etc/systemd/system/srsue.service"

/-- The configuration and relation snapshot a SrsLteCharm instance sees:
`config` models `self.model.config.get` (None for unset keys),
`isLeader` models `self.unit.is_leader()`, and `replicas` models the
"replicas" peer relation: absent, or a data bag mapping keys to stored
strings with "" as the `.get(key, "")` default. -/
structure Charm where
  config : String → Option String
  isLeader : Bool
  replicas : Option (String → String)

/-- charm.SrsLteCharm._mme_addr: None without the replicas relation;
otherwise json.loads of the stored "mme_ipv4_address" value when that
value is non-empty (truthy), else None. -/
def Charm.mme_addr (c : Charm) : Option String :=
  match c.replicas with
  | none => none
  | some data =>
    if data "mme_ipv4_address" = "" then none
    else some (jsonLoads (data "mme_ipv4_address"))

/-- charm.SrsLteCharm._bind_address: the "bind-address" config value when
truthy, else utils.ip_from_default_iface. -/
def Charm.bind_address (c : Charm) (env : Env) : Option String :=
  if pyTruthy (c.config "bind-address") then c.config "bind-address"
  else ip_from_default_iface env

/-- charm.SrsLteCharm._get_srsenb_command, as the Python list of tokens
before `" ".join`: the binary, the optional `--enb.mme_addr` flag (only
when `self._mme_addr` is truthy), the two bind-address flags, and the
fixed tail of name/mcc/mnc/config-file/rf flags, each interpolated with
f-strings. -/
def getSrsenbCommandList (c : Charm) (env : Env) : List String :=
  [SRS_ENB_BINARY]
  ++ (if pyTruthy c.mme_addr then ["--enb.mme_addr=" ++ pyOptStr c.mme_addr] else [])
  ++ ["--enb.gtp_bind_addr=" ++ pyOptStr (c.bind_address env),
      "--enb.s1c_bind_addr=" ++ pyOptStr (c.bind_address env)]
  ++ ["--enb.name=" ++ pyOptStr (c.config "enb-name"),
      "--enb.mcc=" ++ pyOptStr (c.config "enb-mcc"),
      "--enb.mnc=" ++ pyOptStr (c.config "enb-mnc"),
      "--enb_files.rr_config=" ++ CONFIG_PATHS "rr",
      "--enb_files.sib_config=" ++ CONFIG_PATHS "sib",
      "--enb_files.drb_config=" ++ CONFIG_PATHS "drb",
      "--rf.device_name=" ++ pyOptStr (c.config "enb-rf-device-name"),
      "--rf.device_args=" ++ pyOptStr (c.config "enb-rf-device-args")]

/-- charm.SrsLteCharm._get_srsenb_command: the `" ".join` of the token
list. -/
def getSrsenbCommand (c : Charm) (env : Env) : String :=
  String.intercalate " " (getSrsenbCommandList c env)

/-- charm.SrsLteCharm._get_srsue_command, as the Python list of tokens
before `" ".join`: the binary, then (only when `ue_usim_imsi` is truthy)
the three usim imsi, k and opc flags together, then the
fixed tail of algo/apn/rf flags and the ue config path. -/
def getSrsueCommandList (c : Charm) (ue_usim_imsi ue_usim_k ue_usim_opc : Option String) :
    List String :=
  [SRS_UE_BINARY]
  ++ (if pyTruthy ue_usim_imsi then
        ["--usim.imsi=" ++ pyOptStr ue_usim_imsi,
         "--usim.k=" ++ pyOptStr ue_usim_k,
         "--usim.opc=" ++ pyOptStr ue_usim_opc]
      else [])
  ++ ["--usim.algo=" ++ pyOptStr (c.config "ue-usim-algo"),
      "--nas.apn=" ++ pyOptStr (c.config "ue-nas-apn"),
      "--rf.device_name=" ++ pyOptStr (c.config "ue-device-name"),
      "--rf.device_args=" ++ pyOptStr (c.config "ue-device-args"),
      CONFIG_PATHS "ue"]

/-- charm.SrsLteCharm._get_srsue_command: the `" ".join` of the token
list. -/
def getSrsueCommand (c : Charm) (ue_usim_imsi ue_usim_k ue_usim_opc : Option String) : String :=
  String.intercalate " " (getSrsueCommandList c ue_usim_imsi ue_usim_k ue_usim_opc)

/-- Model of jinja2 Template.render for the per-service templates used by
charm.SrsLteCharm._configure_service, which renders only the command
placeholder. -/
def renderCommandTemplate (template command : String) : String :=
  String.replace template "\x7b\x7b command \x7d\x7d" command

/-- charm.SrsLteCharm._configure_service: reads the service template,
renders it with the command, writes the result to the service path and
runs `systemctl daemon-reload`. -/
def configure_service (command service_template service_path : String) : M Unit :=
  M.bind (readFile service_template) (fun template =>
  M.bind (writeFile service_path (renderCommandTemplate template command)) (fun _ =>
  systemctl_daemon_reload))

/-- charm.SrsLteCharm._configure_srsenb_service. -/
def configure_srsenb_service (c : Charm) (env0 : Env) : M Unit :=
  configure_service (getSrsenbCommand c env0) SRS_ENB_SERVICE_TEMPLATE SRS_ENB_SERVICE_PATH

/-- charm.SrsLteCharm._configure_srsue_service. -/
def configure_srsue_service (c : Charm)
    (ue_usim_imsi ue_usim_k ue_usim_opc : Option String) : M Unit :=
  configure_service (getSrsueCommand c ue_usim_imsi ue_usim_k ue_usim_opc)
    SRS_UE_SERVICE_TEMPLATE SRS_UE_SERVICE_PATH

/-- charm.SrsLteCharm._ue_attached: True iff get_iface_ip_address of
"tun_srsue" is truthy. -/
def ue_attached : M Bool :=
  M.bind (get_iface_ip_address "tun_srsue") (fun ip => M.pure (pyTruthy ip))

/-- charm.SrsLteCharm._active_status_msg: "" when srsenb is not active;
otherwise "srsenb started. ", plus the mme address when truthy, plus
"ue attached. " when the tunnel is up and the srsue service is active. -/
def active_status_msg (c : Charm) : M String :=
  M.bind (service_active SRS_ENB_SERVICE) (fun enbActive =>
    if enbActive then
      let m1 := "srsenb started. "
      let m2 := if pyTruthy c.mme_addr then m1 ++ "mme: " ++ pyOptStr c.mme_addr ++ ". " else m1
      M.bind ue_attached (fun att =>
        if att then
          M.bind (service_active SRS_UE_SERVICE) (fun ueActive =>
            M.pure (if ueActive then m2 ++ "ue attached. " else m2))
        else M.pure m2)
    else M.pure "")

/-- charm.SrsLteCharm._on_config_changed: reconfigure the srsenb service,
restart it only when it is currently active (with a Maintenance status
during the restart), then set the Active status message. -/
def on_config_changed (c : Charm) (env0 : Env) : M Unit :=
  M.bind (configure_srsenb_service c env0) (fun _ =>
  M.bind (service_active SRS_ENB_SERVICE) (fun active =>
  M.bind (if active then
            M.bind (setStatus (.maintenance "Reloading srsenb")) (fun _ =>
              service_restart SRS_ENB_SERVICE)
          else M.pure ()) (fun _ =>
  M.bind (active_status_msg c) (fun msg =>
  setStatus (.active msg)))))

/-- Outcome of the lte-core-available observer: returned early for a
non-leader unit, event.fail without the peer relation, or completed with
the updated charm snapshot. -/
inductive LteOutcome where
  | skipped
  | failedNoPeer
  | done
deriving DecidableEq

/-- charm.SrsLteCharm._on_lte_core_available: store json.dumps of the
event's mme address in the replicas data bag, reconfigure the srsenb
service, restart it only when active, then set the Active status. -/
def on_lte_core_available (c : Charm) (mme_ipv4_address : String) (env0 : Env) :
    M (LteOutcome × Charm) :=
  if !c.isLeader then M.pure (.skipped, c)
  else
    match c.replicas with
    | none => M.pure (.failedNoPeer, c)
    | some data =>
      let c' : Charm :=
        { c with replicas := some (fun key =>
            if key = "mme_ipv4_address" then jsonDumps mme_ipv4_address else data key) }
      M.bind (configure_srsenb_service c' env0) (fun _ =>
      M.bind (service_active SRS_ENB_SERVICE) (fun active =>
      M.bind (if active then
                M.bind (setStatus (.maintenance "Reloading srsenb.")) (fun _ =>
                  service_restart SRS_ENB_SERVICE)
              else M.pure ()) (fun _ =>
      M.bind (active_status_msg c') (fun msg =>
      M.bind (setStatus (.active msg)) (fun _ =>
      M.pure (.done, c'))))))

/-- Result of an action event: event.set_results with its key-value
pairs, or event.fail with its message. -/
inductive ActionOutcome where
  | results (kvs : List (String × String))
  | failed (msg : String)
deriving DecidableEq

/-- charm.SrsLteCharm._on_attach_ue_action: fail when the EnodeB is not
active; fail when the UE is already active; otherwise render the srsue
unit with the given credentials, restart srsue and report the tunnel
address, failing when no address is reported. -/
def on_attach_ue_action (c : Charm) (usim_imsi usim_k usim_opc : String) : M ActionOutcome :=
  M.bind (service_active SRS_ENB_SERVICE) (fun enbActive =>
    if !enbActive then M.pure (.failed "Failed to attach. The EnodeB is not running.")
    else
      M.bind (service_active SRS_UE_SERVICE) (fun ueActive =>
        if ueActive then M.pure (.failed "Failed to attach. UE already running, please detach first.")
        else
          M.bind (configure_srsue_service c (some usim_imsi) (some usim_k) (some usim_opc)) (fun _ =>
          M.bind (service_restart SRS_UE_SERVICE) (fun _ =>
          M.bind (get_iface_ip_address "tun_srsue") (fun ueIp =>
            match ueIp with
            | some ip =>
              M.bind (active_status_msg c) (fun msg =>
              M.bind (setStatus (.active msg)) (fun _ =>
              M.pure (.results [("message", "Attached successfully."), ("ue-ipv4", ip)])))
            | none =>
              M.pure (.failed "Failed to attach. Make sure you have provided the right configuration."))))))

/-- charm.SrsLteCharm._on_detach_ue_action: stop srsue, re-render the
srsue unit with credentials None, set the Active status, then report
success. -/
def on_detach_ue_action (c : Charm) : M ActionOutcome :=
  M.bind (service_stop SRS_UE_SERVICE) (fun _ =>
  M.bind (configure_srsue_service c none none none) (fun _ =>
  M.bind (active_status_msg c) (fun msg =>
  M.bind (setStatus (.active msg)) (fun _ =>
  M.pure (.results [("status", "ok"), ("message", "Detached successfully")])))))

/-- charm.SrsLteCharm._on_remove_default_gw_action: run
`route del default` through shell, then report success. -/
def on_remove_default_gw_action : M ActionOutcome :=
  M.bind (shell "route del default") (fun _ =>
  M.pure (.results [("status", "ok"), ("message", "Default route removed!")]))

/-- Decision of `systemctl is-active NAME` in an environment: `some b`
when the query command exits 0 (b iff stdout is "active\n"), `none` when
the query command itself exits nonzero. -/
def queryActive (env : Env) (service_name : String) : Option Bool :=
  let response := env.run (systemctlCmd "is-active" service_name)
  if response.1 = 0 then some (response.2 == "active\n") else none

/-- Boolean prefix test on character lists, used to recognise a
command-line flag at the head of a token. -/
def listStarts : List Char → List Char → Bool
  | [], _ => true
  | _ :: _, [] => false
  | a :: as, b :: bs => a == b && listStarts as bs

/-- A token carries a flag iff the flag string is a prefix of the
token. -/
def tokStarts (flag s : String) : Bool := listStarts flag.data s.data

/-- Number of tokens of a command list carrying the --enb.mme_addr=
flag. -/
def mmeFlagCount (cmd : List String) : Nat :=
  cmd.countP (fun s => tokStarts "--enb.mme_addr=" s)

/-- Number of tokens of a command list carrying any of the three usim
credential flags. -/
def usimFlagCount (cmd : List String) : Nat :=
  cmd.countP (fun s =>
    tokStarts "--usim.imsi=" s || tokStarts "--usim.k=" s || tokStarts "--usim.opc=" s)

/-- Number of `systemctl restart srsenb` invocations in a trace. -/
def restartCount (tr : List Call) : Nat :=
  tr.countP (fun x => decide (x = .sh (systemctlCmd "restart" SRS_ENB_SERVICE)))

/-- Number of sleep calls in a trace. -/
def sleepCount (tr : List Call) : Nat :=
  tr.countP (fun x => match x with | .sleep _ => true | _ => false)

/-- Number of lookups of the srsue tunnel interface in a trace. -/
def tunQueryCount (tr : List Call) : Nat :=
  tr.countP (fun x => decide (x = .ifaceQuery "tun_srsue"))

/-- Boolean subsequence test on token lists (order-preserving
containment). -/
def listSub : List String → List String → Bool
  | [], _ => true
  | _ :: _, [] => false
  | a :: as, b :: bs => if a == b then listSub as bs else listSub (a :: as) bs

/-- An environment in which every command exits 0 with empty output and
no interface exists: in it `systemctl is-active` reports not-active. -/
def envZero : Env := ⟨fun _ => (0, ""), fun _ => none, none⟩

/-- An environment in which srsenb reports active, every other command
exits 0, and the tunnel interface has an empty (falsy) address. -/
def envEnbActive : Env :=
  ⟨fun cmd => if cmd = "systemctl is-active srsenb" then (0, "active\n") else (0, ""),
   fun _ => some "", none⟩

/-- An environment for the attach scenario in which the EnodeB is
active, the UE is not, every command succeeds, and the tun_srsue
interface never reports a (truthy) address. -/
def envAttachNoIp : Env :=
  ⟨fun cmd =>
    if cmd = "systemctl is-active srsenb" then (0, "active\n")
    else if cmd = "systemctl is-active srsue" then (0, "inactive\n")
    else (0, ""),
   fun _ => some "", none⟩

/-- An environment in which `systemctl stop srsue` fails with exit
status 5, as systemd reports for a unit that was never created. -/
def envStopFails : Env :=
  ⟨fun cmd => if cmd = "systemctl stop srsue" then (5, "") else (0, ""),
   fun _ => none, none⟩

/-- An environment in which `route del default` fails with a nonzero
exit status, as `route` reports when no default route is present. -/
def envRouteFails : Env :=
  ⟨fun cmd => if cmd = "route del default" then (7, "") else (0, ""),
   fun _ => none, none⟩

/-- An environment in which the `systemctl is-active foo` query itself
exits nonzero, as systemd does for any unit that is not active. -/
def envQueryFails : Env :=
  ⟨fun cmd => if cmd = "systemctl is-active foo" then (3, "inactive\n") else (0, ""),
   fun _ => none, none⟩

/-- An environment in which the `systemctl is-active srsenb` query exits
nonzero, as systemd reports whenever the srsenb unit is not active,
while every other command exits 0. -/
def envEnbQueryFails : Env :=
  ⟨fun cmd => if cmd = "systemctl is-active srsenb" then (3, "inactive\n") else (0, ""),
   fun _ => none, none⟩

/-- The scenario configuration of the spec: mcc 001, mnc 01, zmq device,
explicit bind address 10.0.0.8. -/
def cfgScenario : String → Option String := fun key =>
  if key = "enb-name" then some "dummyENB01"
  else if key = "enb-mcc" then some "001"
  else if key = "enb-mnc" then some "01"
  else if key = "enb-rf-device-name" then some "zmq"
  else if key = "enb-rf-device-args" then some "zmqargs"
  else if key = "bind-address" then some "10.0.0.8"
  else none

/-- A leader charm snapshot whose replicas relation stores the MME
address 1.2.3.4. -/
def charmScenario : Charm :=
  ⟨cfgScenario, true,
   some (fun key => if key = "mme_ipv4_address" then jsonDumps "1.2.3.4" else "")⟩

/-- A charm snapshot without the replicas relation: the MME address is
absent. -/
def charmNoMme : Charm := ⟨cfgScenario, true, none⟩

/-- A file system holding the two service templates of the charm. -/
def fsTemplates : String → Option String := fun p =>
  if p = SRS_ENB_SERVICE_TEMPLATE then some "ExecStart=\x7b\x7b command \x7d\x7d enb"
  else if p = SRS_UE_SERVICE_TEMPLATE then some "ExecStart=\x7b\x7b command \x7d\x7d ue"
  else none

/-- A start state with both templates on disk and an empty trace. -/
def stBoth : St := ⟨fsTemplates, .active "srsenb started. ", []⟩

/-- A start state with an empty file system and an empty trace. -/
def stEmpty : St := ⟨fun _ => none, .maintenance "", []⟩

theorem listSub_sound : ∀ (l₂ l₁ : List String), listSub l₁ l₂ = true → l₁.Sublist l₂ := by
  intro l₂
  induction l₂ with
  | nil =>
    intro l₁ h
    cases l₁ with
    | nil => exact List.Sublist.refl _
    | cons a as => simp [listSub] at h
  | cons b bs ih =>
    intro l₁ h
    cases l₁ with
    | nil => exact List.nil_sublist _
    | cons a as =>
      by_cases hab : a = b
      · subst hab
        simp [listSub] at h
        exact List.Sublist.cons₂ a (ih as h)
      · have hne : (a == b) = false := by simp [hab]
        simp [listSub, hne] at h
        exact List.Sublist.cons b (ih (a :: as) h)

theorem pyTruthy_some_of_ne (v : String) (hv : v ≠ "") : pyTruthy (some v) = true := by
  cases hld : v.data with
  | nil => exact absurd (String.ext hld) hv
  | cons a l => simp [pyTruthy, hld]

theorem restartCount_append (t u : List Call) :
    restartCount (t ++ u) = restartCount t + restartCount u := by
  simp [restartCount, List.countP_append]

theorem sleepCount_append (t u : List Call) :
    sleepCount (t ++ u) = sleepCount t + sleepCount u := by
  simp [sleepCount, List.countP_append]

theorem tunQueryCount_append (t u : List Call) :
    tunQueryCount (t ++ u) = tunQueryCount t + tunQueryCount u := by
  simp [tunQueryCount, List.countP_append]

theorem service_active_run (service_name : String) (env : Env) (s : St) :
    service_active service_name env s =
      ((if (env.run (systemctlCmd "is-active" service_name)).1 = 0
        then .ok ((env.run (systemctlCmd "is-active" service_name)).2 == "active\n")
        else .error (.calledProcessError (env.run (systemctlCmd "is-active" service_name)).1)),
       { s with trace := s.trace ++ [.sh (systemctlCmd "is-active" service_name)] }) := by
  unfold service_active M.bind shell M.pure
  by_cases h0 : (env.run (systemctlCmd "is-active" service_name)).1 = 0 <;> simp [h0]

theorem service_active_of_query (service_name : String) (env : Env) (s : St) (b : Bool)
    (h : queryActive env service_name = some b) :
    service_active service_name env s =
      (.ok b, { s with trace := s.trace ++ [.sh (systemctlCmd "is-active" service_name)] }) := by
  unfold queryActive at h
  rw [service_active_run]
  by_cases h0 : (env.run (systemctlCmd "is-active" service_name)).1 = 0
  · simp only [h0, if_true, Option.some.injEq] at h
    simp [h0, h]
  · simp [h0] at h

theorem service_active_of_fail (service_name : String) (env : Env) (s : St)
    (h : queryActive env service_name = none) :
    service_active service_name env s =
      (.error (.calledProcessError (env.run (systemctlCmd "is-active" service_name)).1),
       { s with trace := s.trace ++ [.sh (systemctlCmd "is-active" service_name)] }) := by
  unfold queryActive at h
  rw [service_active_run]
  by_cases h0 : (env.run (systemctlCmd "is-active" service_name)).1 = 0
  · simp [h0] at h
  · simp [h0]

theorem utilsSystemctl_run (action service_name : String) (env : Env) (s : St) :
    utilsSystemctl action service_name env s =
      ((if (env.run (systemctlCmd action service_name)).1 = 0 then .ok ()
        else .error (.calledProcessError (env.run (systemctlCmd action service_name)).1)),
       { s with trace := s.trace ++ [.sh (systemctlCmd action service_name)] }) := by
  unfold utilsSystemctl M.bind shell M.pure
  by_cases h0 : (env.run (systemctlCmd action service_name)).1 = 0 <;> simp [h0]

theorem configure_service_run (command service_template service_path : String)
    (env : Env) (s : St) :
    configure_service command service_template service_path env s =
      match s.fs service_template with
      | none => (.error .ioError, s)
      | some t =>
        ((if (env.run "systemctl daemon-reload").1 = 0 then .ok ()
          else .error (.calledProcessError (env.run "systemctl daemon-reload").1)),
         { s with
             fs := fun q => if q = service_path
                   then some (renderCommandTemplate t command) else s.fs q,
             trace := s.trace ++ [.sh "systemctl daemon-reload"] }) := by
  unfold configure_service M.bind readFile writeFile systemctl_daemon_reload shell M.pure
  cases hfs : s.fs service_template with
  | none => simp [hfs]
  | some t =>
    by_cases h0 : (env.run "systemctl daemon-reload").1 = 0 <;>
      simp [hfs, h0, M.bind, M.pure]

theorem Service_create_run (svc : Service) (command user description : String)
    (esp : Option String) (env : Env) (s : St) :
    svc.create command user description esp env s =
      match s.fs SERVICE_TEMPLATE with
      | none => (.error .ioError, s)
      | some t =>
        ((if (env.run "systemctl daemon-reload").1 = 0 then .ok ()
          else .error (.calledProcessError (env.run "systemctl daemon-reload").1)),
         { s with
             fs := fun q => if q = "/etc/systemd/system/" ++ svc.name ++ ".service"
                   then some (renderServiceTemplate t command user description esp)
                   else s.fs q,
             trace := s.trace ++ [.sh "systemctl daemon-reload"] }) := by
  unfold Service.create M.bind readFile writeFile systemctl_daemon_reload shell M.pure
  cases hfs : s.fs SERVICE_TEMPLATE with
  | none => simp [hfs]
  | some t =>
    by_cases h0 : (env.run "systemctl daemon-reload").1 = 0 <;>
      simp [hfs, h0, M.bind, M.pure]

theorem get_iface_run (iface : String) (env : Env) (s : St) :
    get_iface_ip_address iface env s =
      ((match env.ifaceAddr iface with
        | none => .error .valueError
        | some addr => if addr = "" then .ok none else .ok (some addr)),
       { s with trace := s.trace ++ [.ifaceQuery iface] }) := by
  unfold get_iface_ip_address
  cases hia : env.ifaceAddr iface with
  | none => simp [hia]
  | some addr => by_cases ha : addr = "" <;> simp [hia, ha]

theorem create_path_ne_template (name : String) :
    ("/etc/systemd/system/" ++ name ++ ".service") ≠ SERVICE_TEMPLATE := by
  intro h
  have h2 : ("/etc/systemd/system/" ++ name ++ ".service").data.head? = some '/' := rfl
  rw [h] at h2
  exact absurd h2 (by decide)

theorem active_status_msg_not_active (c : Charm) (env : Env) (s : St)
    (h : queryActive env SRS_ENB_SERVICE = some false) :
    active_status_msg c env s =
      (.ok "", { s with trace := s.trace ++ [.sh (systemctlCmd "is-active" SRS_ENB_SERVICE)] }) := by
  unfold active_status_msg
  simp only [M.bind]
  rw [service_active_of_query SRS_ENB_SERVICE env s false h]
  simp [M.pure]

theorem active_status_msg_trace (c : Charm) (env : Env) (s : St) :
    ∃ extra : List Call,
      (active_status_msg c env s).2 = { s with trace := s.trace ++ extra } ∧
      restartCount extra = 0 := by
  unfold active_status_msg ue_attached
  by_cases h0 : (env.run (systemctlCmd "is-active" SRS_ENB_SERVICE)).1 = 0
  · cases hb : (env.run (systemctlCmd "is-active" SRS_ENB_SERVICE)).2 == "active\n"
    · exact ⟨[.sh (systemctlCmd "is-active" SRS_ENB_SERVICE)],
        by simp [M.bind, M.pure, service_active_run, h0, hb], by decide⟩
    · cases hia : env.ifaceAddr "tun_srsue" with
      | none =>
        exact ⟨[.sh (systemctlCmd "is-active" SRS_ENB_SERVICE), .ifaceQuery "tun_srsue"],
          by simp [M.bind, M.pure, service_active_run, get_iface_run, h0, hb, hia], by decide⟩
      | some addr =>
        by_cases ha : addr = ""
        · exact ⟨[.sh (systemctlCmd "is-active" SRS_ENB_SERVICE), .ifaceQuery "tun_srsue"],
            by simp [M.bind, M.pure, service_active_run, get_iface_run, h0, hb, hia, ha,
              pyTruthy], by decide⟩
        · cases hpt : pyTruthy (some addr)
          · exact ⟨[.sh (systemctlCmd "is-active" SRS_ENB_SERVICE), .ifaceQuery "tun_srsue"],
              by simp [M.bind, M.pure, service_active_run, get_iface_run, h0, hb, hia, ha,
                hpt], by decide⟩
          · by_cases h2 : (env.run (systemctlCmd "is-active" SRS_UE_SERVICE)).1 = 0
            · exact ⟨[.sh (systemctlCmd "is-active" SRS_ENB_SERVICE), .ifaceQuery "tun_srsue",
                .sh (systemctlCmd "is-active" SRS_UE_SERVICE)],
                by simp [M.bind, M.pure, service_active_run, get_iface_run, h0, hb, hia, ha,
                  hpt, h2], by decide⟩
            · exact ⟨[.sh (systemctlCmd "is-active" SRS_ENB_SERVICE), .ifaceQuery "tun_srsue",
                .sh (systemctlCmd "is-active" SRS_UE_SERVICE)],
                by simp [M.bind, M.pure, service_active_run, get_iface_run, h0, hb, hia, ha,
                  hpt, h2], by decide⟩
  · exact ⟨[.sh (systemctlCmd "is-active" SRS_ENB_SERVICE)],
      by simp [M.bind, service_active_run, h0], by decide⟩

theorem tokStarts_mme_self (v : String) :
    tokStarts "--enb.mme_addr=" ("--enb.mme_addr=" ++ v) = true := rfl

theorem tokStarts_mme_binary : tokStarts "--enb.mme_addr=" SRS_ENB_BINARY = false := rfl

theorem tokStarts_mme_gtp (v : String) :
    tokStarts "--enb.mme_addr=" ("--enb.gtp_bind_addr=" ++ v) = false := rfl

theorem tokStarts_mme_s1c (v : String) :
    tokStarts "--enb.mme_addr=" ("--enb.s1c_bind_addr=" ++ v) = false := rfl

theorem tokStarts_mme_name (v : String) :
    tokStarts "--enb.mme_addr=" ("--enb.name=" ++ v) = false := rfl

theorem tokStarts_mme_mcc (v : String) :
    tokStarts "--enb.mme_addr=" ("--enb.mcc=" ++ v) = false := rfl

theorem tokStarts_mme_mnc (v : String) :
    tokStarts "--enb.mme_addr=" ("--enb.mnc=" ++ v) = false := rfl

theorem tokStarts_mme_rr :
    tokStarts "--enb.mme_addr=" ("--enb_files.rr_config=" ++ CONFIG_PATHS "rr") = false := rfl

theorem tokStarts_mme_sib :
    tokStarts "--enb.mme_addr=" ("--enb_files.sib_config=" ++ CONFIG_PATHS "sib") = false := rfl

theorem tokStarts_mme_drb :
    tokStarts "--enb.mme_addr=" ("--enb_files.drb_config=" ++ CONFIG_PATHS "drb") = false := rfl

theorem tokStarts_mme_rfname (v : String) :
    tokStarts "--enb.mme_addr=" ("--rf.device_name=" ++ v) = false := rfl

theorem tokStarts_mme_rfargs (v : String) :
    tokStarts "--enb.mme_addr=" ("--rf.device_args=" ++ v) = false := rfl

theorem usimTok_binary :
    (tokStarts "--usim.imsi=" SRS_UE_BINARY || tokStarts "--usim.k=" SRS_UE_BINARY ||
      tokStarts "--usim.opc=" SRS_UE_BINARY) = false := rfl

theorem usimTok_algo (v : String) :
    (tokStarts "--usim.imsi=" ("--usim.algo=" ++ v) || tokStarts "--usim.k=" ("--usim.algo=" ++ v) ||
      tokStarts "--usim.opc=" ("--usim.algo=" ++ v)) = false := rfl

theorem usimTok_apn (v : String) :
    (tokStarts "--usim.imsi=" ("--nas.apn=" ++ v) || tokStarts "--usim.k=" ("--nas.apn=" ++ v) ||
      tokStarts "--usim.opc=" ("--nas.apn=" ++ v)) = false := rfl

theorem usimTok_rfname (v : String) :
    (tokStarts "--usim.imsi=" ("--rf.device_name=" ++ v) ||
      tokStarts "--usim.k=" ("--rf.device_name=" ++ v) ||
      tokStarts "--usim.opc=" ("--rf.device_name=" ++ v)) = false := rfl

theorem usimTok_rfargs (v : String) :
    (tokStarts "--usim.imsi=" ("--rf.device_args=" ++ v) ||
      tokStarts "--usim.k=" ("--rf.device_args=" ++ v) ||
      tokStarts "--usim.opc=" ("--rf.device_args=" ++ v)) = false := rfl

theorem usimTok_ueconf :
    (tokStarts "--usim.imsi=" (CONFIG_PATHS "ue") || tokStarts "--usim.k=" (CONFIG_PATHS "ue") ||
      tokStarts "--usim.opc=" (CONFIG_PATHS "ue")) = false := rfl

/-- C1: in every snapshot with the MME address absent the srsenb command
carries no --enb.mme_addr= flag at all, and in every snapshot with the
MME address present (a non-empty, hence truthy, string v) it carries the
flag --enb.mme_addr=v exactly once. -/
theorem claimC1_mme_flag (c : Charm) (env : Env) :
    (c.mme_addr = none → mmeFlagCount (getSrsenbCommandList c env) = 0) ∧
    (∀ v, c.mme_addr = some v → v ≠ "" →
      mmeFlagCount (getSrsenbCommandList c env) = 1 ∧
      ("--enb.mme_addr=" ++ v) ∈ getSrsenbCommandList c env) := by
  constructor
  · intro h
    simp [getSrsenbCommandList, h, pyTruthy, mmeFlagCount, List.countP_cons, List.countP_append,
      tokStarts_mme_binary, tokStarts_mme_gtp, tokStarts_mme_s1c, tokStarts_mme_name,
      tokStarts_mme_mcc, tokStarts_mme_mnc, tokStarts_mme_rr, tokStarts_mme_sib,
      tokStarts_mme_drb, tokStarts_mme_rfname, tokStarts_mme_rfargs]
  · intro v h hv
    have hpt := pyTruthy_some_of_ne v hv
    constructor
    · simp [getSrsenbCommandList, h, hpt, pyOptStr, mmeFlagCount, List.countP_cons,
        List.countP_append, tokStarts_mme_self, tokStarts_mme_binary, tokStarts_mme_gtp,
        tokStarts_mme_s1c, tokStarts_mme_name, tokStarts_mme_mcc, tokStarts_mme_mnc,
        tokStarts_mme_rr, tokStarts_mme_sib, tokStarts_mme_drb, tokStarts_mme_rfname,
        tokStarts_mme_rfargs]
    · simp [getSrsenbCommandList, h, hpt, pyOptStr]

theorem claimC1_mme_flag_witness :
    mmeFlagCount (getSrsenbCommandList charmNoMme envZero) = 0 ∧
    (mmeFlagCount (getSrsenbCommandList charmScenario envZero) = 1 ∧
      ("--enb.mme_addr=" ++ "1.2.3.4") ∈ getSrsenbCommandList charmScenario envZero) :=
  ⟨(claimC1_mme_flag charmNoMme envZero).1 (by decide),
   (claimC1_mme_flag charmScenario envZero).2 "1.2.3.4" (by decide) (by decide)⟩

/-- C2: the srsenb command is a deterministic function of the
configuration and connectivity snapshot, and for the spec scenario
(mcc 001, mnc 01, mme 1.2.3.4, bind 10.0.0.8) the command carries, in
this order, the mme_addr, gtp_bind_addr, s1c_bind_addr, name, mcc and
mnc flags. -/
theorem claimC2_fixed_order :
    (∀ (env₁ env₂ : Env) (c₁ c₂ : Charm), env₁ = env₂ → c₁ = c₂ →
      getSrsenbCommand c₁ env₁ = getSrsenbCommand c₂ env₂) ∧
    List.Sublist
      ["--enb.mme_addr=1.2.3.4", "--enb.gtp_bind_addr=10.0.0.8", "--enb.s1c_bind_addr=10.0.0.8",
       "--enb.name=dummyENB01", "--enb.mcc=001", "--enb.mnc=01"]
      (getSrsenbCommandList charmScenario envZero) := by
  refine ⟨fun env₁ env₂ c₁ c₂ he hc => by rw [he, hc], ?_⟩
  exact listSub_sound _ _ (by decide)

theorem claimC2_fixed_order_witness :
    getSrsenbCommand charmScenario envZero = getSrsenbCommand charmScenario envZero :=
  claimC2_fixed_order.1 envZero envZero charmScenario charmScenario rfl rfl

theorem Service_is_active_run (name : String) (env : Env) (s : St) :
    (Service.mk name).is_active env s =
      ((match queryActive env name with
        | some b => Except.ok b
        | none => Except.ok false),
       { s with trace := s.trace ++ [.sh (systemctlCmd "is-active" name)] }) := by
  unfold Service.is_active M.catchCPE Service.systemctlRun shell M.bind M.pure queryActive
    systemctlCmd
  by_cases h0 : (env.run ("systemctl is-active " ++ name)).1 = 0 <;> simp [h0]

/-- C5 counterexample: utils.service_active, one of the two cited
is_active implementations, propagates the CalledProcessError instead of
returning false when the `systemctl is-active` query exits nonzero (as
systemd reports for any unit that is not active or unknown). -/
theorem claimC5_counterexample :
    (service_active "foo" envQueryFails stEmpty).1 ≠ Except.ok false ∧
    (service_active "foo" envQueryFails stEmpty).1 =
      Except.error (.calledProcessError 3) := by
  have h : (service_active "foo" envQueryFails stEmpty).1 =
      Except.error (.calledProcessError 3) := rfl
  exact ⟨by rw [h]; exact fun h2 => Except.noConfusion h2, h⟩

/-- C5 amended: linux_service.Service.is_active always returns a boolean
and maps a failing `systemctl is-active` query to false, while
utils.service_active (see the counterexample) propagates the error. -/
theorem claimC5_is_active_total (env : Env) (name : String) (s : St) :
    (∃ b, ((Service.mk name).is_active env s).1 = Except.ok b) ∧
    (queryActive env name = none →
      ((Service.mk name).is_active env s).1 = Except.ok false) := by
  constructor
  · rw [Service_is_active_run]
    cases hq : queryActive env name with
    | some b => exact ⟨b, by simp [hq]⟩
    | none => exact ⟨false, by simp [hq]⟩
  · intro h
    rw [Service_is_active_run]
    simp [h]

theorem claimC5_is_active_total_witness :
    ((Service.mk "foo").is_active envQueryFails stEmpty).1 = Except.ok false :=
  (claimC5_is_active_total envQueryFails "foo" stEmpty).2 (by decide)

/-- C6 counterexample: in the realistic not-active state — the
`systemctl is-active srsenb` query exits nonzero, as systemd reports for
every unit that is not active — the attach action does not fail with the
precondition message: utils.service_active propagates the
CalledProcessError raised by shell and the handler errors out. -/
theorem claimC6_counterexample :
    (on_attach_ue_action charmScenario "imsi1" "k1" "opc1" envEnbQueryFails stBoth).1 =
      Except.error (.calledProcessError 3) ∧
    (on_attach_ue_action charmScenario "imsi1" "k1" "opc1" envEnbQueryFails stBoth).1 ≠
      Except.ok (.failed "Failed to attach. The EnodeB is not running.") := by
  have h : (on_attach_ue_action charmScenario "imsi1" "k1" "opc1" envEnbQueryFails stBoth).1 =
      Except.error (.calledProcessError 3) := rfl
  exact ⟨h, by rw [h]; exact fun h2 => Except.noConfusion h2⟩

/-- C6 amended: in every state in which the EnodeB is not active, the
attach action performs no state-mutating service-manager call (its only
external call is the single is-active query) and leaves the unit status
and the file system unchanged; it fails with the precondition message
only when the is-active query returns the not-active answer with exit
status 0, while when the query itself exits nonzero — as systemd reports
for every not-active unit — the action instead propagates the
CalledProcessError raised by shell. -/
theorem claimC6_attach_guard (env : Env) (c : Charm) (imsi k opc : String) (s : St) :
    (queryActive env SRS_ENB_SERVICE = some false →
      on_attach_ue_action c imsi k opc env s =
        (.ok (.failed "Failed to attach. The EnodeB is not running."),
         { s with trace := s.trace ++ [.sh (systemctlCmd "is-active" SRS_ENB_SERVICE)] })) ∧
    (queryActive env SRS_ENB_SERVICE = none →
      on_attach_ue_action c imsi k opc env s =
        (.error (.calledProcessError (env.run (systemctlCmd "is-active" SRS_ENB_SERVICE)).1),
         { s with trace := s.trace ++ [.sh (systemctlCmd "is-active" SRS_ENB_SERVICE)] })) := by
  constructor
  · intro h
    unfold on_attach_ue_action
    simp only [M.bind]
    rw [service_active_of_query SRS_ENB_SERVICE env s false h]
    simp [M.pure]
  · intro h
    unfold on_attach_ue_action
    simp only [M.bind]
    rw [service_active_of_fail SRS_ENB_SERVICE env s h]

theorem claimC6_attach_guard_witness :
    on_attach_ue_action charmScenario "imsi1" "k1" "opc1" envZero stBoth =
      (.ok (.failed "Failed to attach. The EnodeB is not running."),
       { stBoth with
           trace := stBoth.trace ++ [.sh (systemctlCmd "is-active" SRS_ENB_SERVICE)] }) ∧
    on_attach_ue_action charmScenario "imsi1" "k1" "opc1" envEnbQueryFails stBoth =
      (.error (.calledProcessError 3),
       { stBoth with
           trace := stBoth.trace ++ [.sh (systemctlCmd "is-active" SRS_ENB_SERVICE)] }) :=
  ⟨(claimC6_attach_guard envZero charmScenario "imsi1" "k1" "opc1" stBoth).1 (by decide),
   (claimC6_attach_guard envEnbQueryFails charmScenario "imsi1" "k1" "opc1" stBoth).2
     (by decide)⟩

/-- C9 counterexample: when `route del default` exits nonzero (as
`route` does when no default route is present), the action propagates
the CalledProcessError instead of returning the success pair. -/
theorem claimC9_counterexample :
    (on_remove_default_gw_action envRouteFails stEmpty).1 =
      Except.error (.calledProcessError 7) := rfl

/-- C9 amended: the remove-default-gw action never alters the unit
status, and returns the success pair exactly when the route deletion
command exits zero; when the command fails the CalledProcessError
propagates instead. -/
theorem claimC9_remove_gw (env : Env) (s : St) :
    ((on_remove_default_gw_action env s).2.status = s.status) ∧
    ((env.run "route del default").1 = 0 →
      (on_remove_default_gw_action env s).1 =
        .ok (.results [("status", "ok"), ("message", "Default route removed!")])) := by
  unfold on_remove_default_gw_action M.bind shell M.pure
  by_cases h0 : (env.run "route del default").1 = 0 <;> simp [h0]

theorem claimC9_remove_gw_witness :
    (on_remove_default_gw_action envZero stEmpty).1 =
      .ok (.results [("status", "ok"), ("message", "Default route removed!")]) :=
  (claimC9_remove_gw envZero stEmpty).2 (by decide)

/-- C8: converging twice with an identical spec leaves the on-disk state
of the second call byte-for-byte equal to that of the first, both for
linux_service.Service.create (whose template path never equals the unit
path it writes) and for charm._configure_service whenever the template
path differs from the service path. -/
theorem claimC8_converge_idempotent :
    (∀ (svc : Service) (command user description : String) (esp : Option String)
        (env : Env) (s : St),
      (svc.create command user description esp env
        ((svc.create command user description esp env s).2)).2.fs =
      (svc.create command user description esp env s).2.fs) ∧
    (∀ (command tp sp : String) (env : Env) (s : St), tp ≠ sp →
      (configure_service command tp sp env
        ((configure_service command tp sp env s).2)).2.fs =
      (configure_service command tp sp env s).2.fs) := by
  constructor
  · intro svc command user description esp env s
    rcases hfs : s.fs SERVICE_TEMPLATE with _ | t
    · have h1 : svc.create command user description esp env s = (.error .ioError, s) := by
        rw [Service_create_run]; simp [hfs]
      simp [h1]
    · have h1 : (svc.create command user description esp env s).2 =
          { s with
              fs := fun q => if q = "/etc/systemd/system/" ++ svc.name ++ ".service"
                    then some (renderServiceTemplate t command user description esp)
                    else s.fs q,
              trace := s.trace ++ [.sh "systemctl daemon-reload"] } := by
        rw [Service_create_run]; simp [hfs]
      have h2 : ((svc.create command user description esp env s).2).fs SERVICE_TEMPLATE
          = some t := by
        rw [h1]; simp [Ne.symm (create_path_ne_template svc.name), hfs]
      rw [Service_create_run, h2, h1]
      simp only []
      funext q
      by_cases hq : q = "/etc/systemd/system/" ++ svc.name ++ ".service" <;> simp [hq]
  · intro command tp sp env s hne
    rcases hfs : s.fs tp with _ | t
    · have h1 : configure_service command tp sp env s = (.error .ioError, s) := by
        rw [configure_service_run]; simp [hfs]
      simp [h1]
    · have h1 : (configure_service command tp sp env s).2 =
          { s with
              fs := fun q => if q = sp then some (renderCommandTemplate t command) else s.fs q,
              trace := s.trace ++ [.sh "systemctl daemon-reload"] } := by
        rw [configure_service_run]; simp [hfs]
      have h2 : ((configure_service command tp sp env s).2).fs tp = some t := by
        rw [h1]; simp [hne, hfs]
      rw [configure_service_run, h2, h1]
      simp only []
      funext q
      by_cases hq : q = sp <;> simp [hq]

theorem claimC8_converge_idempotent_witness :
    (configure_service "cmd" SRS_ENB_SERVICE_TEMPLATE SRS_ENB_SERVICE_PATH envZero
      ((configure_service "cmd" SRS_ENB_SERVICE_TEMPLATE SRS_ENB_SERVICE_PATH envZero
        stBoth).2)).2.fs =
    (configure_service "cmd" SRS_ENB_SERVICE_TEMPLATE SRS_ENB_SERVICE_PATH envZero stBoth).2.fs :=
  claimC8_converge_idempotent.2 "cmd" SRS_ENB_SERVICE_TEMPLATE SRS_ENB_SERVICE_PATH envZero
    stBoth (by decide)

theorem M_bind_ok {α β : Type} (x : M α) (f : α → M β) (env : Env) (s : St)
    {a : α} {s₁ : St} (h : x env s = (.ok a, s₁)) :
    M.bind x f env s = f a env s₁ := by
  simp [M.bind, h]

theorem M_bind_err {α β : Type} (x : M α) (f : α → M β) (env : Env) (s : St)
    {e : PyErr} {s₁ : St} (h : x env s = (.error e, s₁)) :
    M.bind x f env s = (.error e, s₁) := by
  simp [M.bind, h]

theorem service_stop_ok (env : Env) (s : St) (name : String)
    (h : (env.run (systemctlCmd "stop" name)).1 = 0) :
    service_stop name env s =
      (.ok (), { s with trace := s.trace ++ [.sh (systemctlCmd "stop" name)] }) := by
  rw [service_stop, utilsSystemctl_run]
  simp [h]

/-- C4 counterexample: in the state where the UE service was never
created, `systemctl stop srsue` exits nonzero (status 5), shell raises
CalledProcessError, and the detach action propagates the error instead
of returning a success pair. -/
theorem claimC4_counterexample :
    (on_detach_ue_action charmScenario envStopFails stEmpty).1 =
      Except.error (.calledProcessError 5) := rfl

/-- C4 amended: the detach action returns the success status/message
pair whenever its underlying calls succeed (stop exits zero, the ue
template is readable, daemon-reload exits zero, and the srsenb is-active
query answers false, which makes the status message empty); when the
stop command fails the error propagates instead (see the
counterexample). -/
theorem claimC4_detach_success (env : Env) (c : Charm) (s : St) (t : String)
    (h1 : (env.run (systemctlCmd "stop" SRS_UE_SERVICE)).1 = 0)
    (h2 : s.fs SRS_UE_SERVICE_TEMPLATE = some t)
    (h3 : (env.run "systemctl daemon-reload").1 = 0)
    (h4 : queryActive env SRS_ENB_SERVICE = some false) :
    (on_detach_ue_action c env s).1 =
      .ok (.results [("status", "ok"), ("message", "Detached successfully")]) ∧
    (on_detach_ue_action c env s).2.status = .active "" := by
  have hstop := service_stop_ok env s SRS_UE_SERVICE h1
  have hconf : configure_srsue_service c none none none env
      { s with trace := s.trace ++ [.sh (systemctlCmd "stop" SRS_UE_SERVICE)] } =
      (.ok (),
       { s with
           fs := fun q => if q = SRS_UE_SERVICE_PATH
                 then some (renderCommandTemplate t (getSrsueCommand c none none none))
                 else s.fs q,
           trace := (s.trace ++ [.sh (systemctlCmd "stop" SRS_UE_SERVICE)])
                    ++ [.sh "systemctl daemon-reload"] }) := by
    rw [configure_srsue_service, configure_service_run]
    simp [h2, h3]
  unfold on_detach_ue_action
  rw [M_bind_ok _ _ _ _ hstop, M_bind_ok _ _ _ _ hconf,
    M_bind_ok _ _ _ _ (active_status_msg_not_active c env _ h4)]
  simp [M.bind, setStatus, M.pure]

theorem claimC4_detach_success_witness :
    (on_detach_ue_action charmScenario envZero stBoth).1 =
      .ok (.results [("status", "ok"), ("message", "Detached successfully")]) :=
  (claimC4_detach_success envZero charmScenario stBoth "ExecStart=\x7b\x7b command \x7d\x7d ue"
    (by decide) (by decide) (by decide) (by decide)).1

theorem usimFlagCount_credentials_absent (c : Charm) (imsi uk opc : Option String)
    (h : pyTruthy imsi = false) :
    usimFlagCount (getSrsueCommandList c imsi uk opc) = 0 := by
  simp [getSrsueCommandList, h, usimFlagCount, List.countP_cons, List.countP_append,
    usimTok_binary, usimTok_algo, usimTok_apn, usimTok_rfname, usimTok_rfargs, usimTok_ueconf]

theorem detach_tail_fs (c : Charm) (env : Env) (s : St) (res : ActionOutcome) :
    ((M.bind (active_status_msg c) (fun msg =>
      M.bind (setStatus (.active msg)) (fun _ => M.pure res))) env s).2.fs = s.fs := by
  obtain ⟨extra, hst, _⟩ := active_status_msg_trace c env s
  rcases hmsg : active_status_msg c env s with ⟨r3, s3⟩
  rw [hmsg] at hst
  simp only [M.bind, hmsg]
  cases r3 <;> simp_all [setStatus, M.pure]

/-- C10: the three usim credential flags are all-or-nothing in the srsue
command (none when the imsi is falsy, all three when it is truthy), and
every completed detach re-renders the srsue unit file from credentials
None, so the rendered command carries no usim flag. -/
theorem claimC10_detach_clears_credentials :
    (∀ (c : Charm) (imsi uk opc : Option String), pyTruthy imsi = false →
      usimFlagCount (getSrsueCommandList c imsi uk opc) = 0) ∧
    (∀ (c : Charm) (imsi uk opc : Option String), pyTruthy imsi = true →
      ("--usim.imsi=" ++ pyOptStr imsi) ∈ getSrsueCommandList c imsi uk opc ∧
      ("--usim.k=" ++ pyOptStr uk) ∈ getSrsueCommandList c imsi uk opc ∧
      ("--usim.opc=" ++ pyOptStr opc) ∈ getSrsueCommandList c imsi uk opc) ∧
    (∀ (c : Charm) (env : Env) (s : St) (t : String),
      (env.run (systemctlCmd "stop" SRS_UE_SERVICE)).1 = 0 →
      s.fs SRS_UE_SERVICE_TEMPLATE = some t →
      (on_detach_ue_action c env s).2.fs SRS_UE_SERVICE_PATH =
        some (renderCommandTemplate t (getSrsueCommand c none none none)) ∧
      usimFlagCount (getSrsueCommandList c none none none) = 0) := by
  refine ⟨usimFlagCount_credentials_absent, ?_, ?_⟩
  · intro c imsi uk opc h
    refine ⟨?_, ?_, ?_⟩ <;> simp [getSrsueCommandList, h]
  · intro c env s t h1 hfs
    refine ⟨?_, usimFlagCount_credentials_absent c none none none rfl⟩
    have hstop := service_stop_ok env s SRS_UE_SERVICE h1
    unfold on_detach_ue_action
    rw [M_bind_ok _ _ _ _ hstop, configure_srsue_service]
    by_cases hdr : (env.run "systemctl daemon-reload").1 = 0
    · have hconf : configure_service (getSrsueCommand c none none none)
          SRS_UE_SERVICE_TEMPLATE SRS_UE_SERVICE_PATH env
          { s with trace := s.trace ++ [.sh (systemctlCmd "stop" SRS_UE_SERVICE)] } =
          (.ok (),
           { s with
               fs := fun q => if q = SRS_UE_SERVICE_PATH
                     then some (renderCommandTemplate t (getSrsueCommand c none none none))
                     else s.fs q,
               trace := (s.trace ++ [.sh (systemctlCmd "stop" SRS_UE_SERVICE)])
                        ++ [.sh "systemctl daemon-reload"] }) := by
        rw [configure_service_run]
        simp [hfs, hdr]
      rw [M_bind_ok _ _ _ _ hconf, detach_tail_fs]
      simp
    · have hconf : configure_service (getSrsueCommand c none none none)
          SRS_UE_SERVICE_TEMPLATE SRS_UE_SERVICE_PATH env
          { s with trace := s.trace ++ [.sh (systemctlCmd "stop" SRS_UE_SERVICE)] } =
          (.error (.calledProcessError (env.run "systemctl daemon-reload").1),
           { s with
               fs := fun q => if q = SRS_UE_SERVICE_PATH
                     then some (renderCommandTemplate t (getSrsueCommand c none none none))
                     else s.fs q,
               trace := (s.trace ++ [.sh (systemctlCmd "stop" SRS_UE_SERVICE)])
                        ++ [.sh "systemctl daemon-reload"] }) := by
        rw [configure_service_run]
        simp [hfs, hdr]
      rw [M_bind_err _ _ _ _ hconf]
      simp

theorem claimC10_detach_clears_credentials_witness :
    usimFlagCount (getSrsueCommandList charmScenario none none none) = 0 ∧
    (("--usim.imsi=" ++ pyOptStr (some "901700000000001"))
        ∈ getSrsueCommandList charmScenario (some "901700000000001") (some "key1") (some "opc1") ∧
      ("--usim.k=" ++ pyOptStr (some "key1"))
        ∈ getSrsueCommandList charmScenario (some "901700000000001") (some "key1") (some "opc1") ∧
      ("--usim.opc=" ++ pyOptStr (some "opc1"))
        ∈ getSrsueCommandList charmScenario (some "901700000000001") (some "key1") (some "opc1")) ∧
    (on_detach_ue_action charmScenario envZero stBoth).2.fs SRS_UE_SERVICE_PATH =
      some (renderCommandTemplate "ExecStart=\x7b\x7b command \x7d\x7d ue"
        (getSrsueCommand charmScenario none none none)) :=
  ⟨claimC10_detach_clears_credentials.1 charmScenario none none none rfl,
   claimC10_detach_clears_credentials.2.1 charmScenario (some "901700000000001") (some "key1")
     (some "opc1") (by decide),
   (claimC10_detach_clears_credentials.2.2 charmScenario envZero stBoth
     "ExecStart=\x7b\x7b command \x7d\x7d ue" (by decide) (by decide)).1⟩

/-- C7 counterexample: in a run where the tunnel interface never reports
an address, the attach action of src/charm.py fails immediately with the
generic configuration message after exactly one interface check: no
polling loop, no sleep, and no timeout-specific reason. -/
theorem claimC7_counterexample :
    (on_attach_ue_action charmScenario "imsi1" "k1" "opc1" envAttachNoIp stBoth).1 =
      Except.ok (.failed
        "Failed to attach. Make sure you have provided the right configuration.") ∧
    sleepCount
      ((on_attach_ue_action charmScenario "imsi1" "k1" "opc1" envAttachNoIp stBoth).2.trace)
      = 0 ∧
    tunQueryCount
      ((on_attach_ue_action charmScenario "imsi1" "k1" "opc1" envAttachNoIp stBoth).2.trace)
      = 1 := by
  refine ⟨rfl, ?_, ?_⟩ <;> decide

/-- C7 amended: whenever the attach action reaches the interface check
(EnodeB active, UE not active, template readable, daemon-reload and
restart succeed) and the tun_srsue interface reports no truthy address,
the action performs exactly one interface lookup, zero sleeps, and fails
at once with the generic configuration message rather than a
timeout-specific one. -/
theorem claimC7_attach_single_check (env : Env) (c : Charm) (imsi uk opc : String) (s : St)
    (t : String)
    (h1 : queryActive env SRS_ENB_SERVICE = some true)
    (h2 : queryActive env SRS_UE_SERVICE = some false)
    (h3 : s.fs SRS_UE_SERVICE_TEMPLATE = some t)
    (h4 : (env.run "systemctl daemon-reload").1 = 0)
    (h5 : (env.run (systemctlCmd "restart" SRS_UE_SERVICE)).1 = 0)
    (h6 : env.ifaceAddr "tun_srsue" = some "") :
    (on_attach_ue_action c imsi uk opc env s).1 =
      .ok (.failed "Failed to attach. Make sure you have provided the right configuration.") ∧
    sleepCount ((on_attach_ue_action c imsi uk opc env s).2.trace) = sleepCount s.trace ∧
    tunQueryCount ((on_attach_ue_action c imsi uk opc env s).2.trace) =
      tunQueryCount s.trace + 1 := by
  have e1 : (env.run (systemctlCmd "is-active" SRS_ENB_SERVICE)).1 = 0 := by
    unfold queryActive at h1
    by_cases h : (env.run (systemctlCmd "is-active" SRS_ENB_SERVICE)).1 = 0
    · exact h
    · simp [h] at h1
  have b1 : ((env.run (systemctlCmd "is-active" SRS_ENB_SERVICE)).2 == "active\n") = true := by
    unfold queryActive at h1
    simp only [e1, if_true, Option.some.injEq] at h1
    exact h1
  have e2 : (env.run (systemctlCmd "is-active" SRS_UE_SERVICE)).1 = 0 := by
    unfold queryActive at h2
    by_cases h : (env.run (systemctlCmd "is-active" SRS_UE_SERVICE)).1 = 0
    · exact h
    · simp [h] at h2
  have b2 : ((env.run (systemctlCmd "is-active" SRS_UE_SERVICE)).2 == "active\n") = false := by
    unfold queryActive at h2
    simp only [e2, if_true, Option.some.injEq] at h2
    exact h2
  have hrun : on_attach_ue_action c imsi uk opc env s =
      (.ok (.failed "Failed to attach. Make sure you have provided the right configuration."),
       { s with
           fs := fun q => if q = SRS_UE_SERVICE_PATH
                 then some (renderCommandTemplate t
                   (getSrsueCommand c (some imsi) (some uk) (some opc)))
                 else s.fs q,
           trace := s.trace ++
             [.sh (systemctlCmd "is-active" SRS_ENB_SERVICE),
              .sh (systemctlCmd "is-active" SRS_UE_SERVICE),
              .sh "systemctl daemon-reload",
              .sh (systemctlCmd "restart" SRS_UE_SERVICE),
              .ifaceQuery "tun_srsue"] }) := by
    unfold on_attach_ue_action configure_srsue_service service_restart
    simp [M.bind, M.pure, service_active_run, configure_service_run, utilsSystemctl_run,
      get_iface_run, e1, b1, e2, b2, h3, h4, h5, h6]
  refine ⟨by rw [hrun], ?_, ?_⟩
  · rw [hrun]
    simp only [sleepCount_append]
    have hz : sleepCount
        [.sh (systemctlCmd "is-active" SRS_ENB_SERVICE),
         .sh (systemctlCmd "is-active" SRS_UE_SERVICE),
         .sh "systemctl daemon-reload",
         .sh (systemctlCmd "restart" SRS_UE_SERVICE),
         .ifaceQuery "tun_srsue"] = 0 := by decide
    omega
  · rw [hrun]
    simp only [tunQueryCount_append]
    have ho : tunQueryCount
        [.sh (systemctlCmd "is-active" SRS_ENB_SERVICE),
         .sh (systemctlCmd "is-active" SRS_UE_SERVICE),
         .sh "systemctl daemon-reload",
         .sh (systemctlCmd "restart" SRS_UE_SERVICE),
         .ifaceQuery "tun_srsue"] = 1 := by decide
    omega

theorem claimC7_attach_single_check_witness :
    (on_attach_ue_action charmNoMme "imsi2" "k2" "opc2" envAttachNoIp stBoth).1 =
      .ok (.failed "Failed to attach. Make sure you have provided the right configuration.") :=
  (claimC7_attach_single_check envAttachNoIp charmNoMme "imsi2" "k2" "opc2" stBoth
    "ExecStart=\x7b\x7b command \x7d\x7d ue" (by decide) (by decide) (by decide) (by decide)
    (by decide) (by decide)).1

theorem M_bind_pure {α β : Type} (a : α) (f : α → M β) (env : Env) (s : St) :
    M.bind (M.pure a) f env s = f a env s := rfl

theorem tail_restart_config (c : Charm) (env : Env) (s : St) :
    restartCount (((M.bind (active_status_msg c) (fun msg =>
      setStatus (.active msg))) env s).2.trace) = restartCount s.trace := by
  obtain ⟨extra, hst, hr⟩ := active_status_msg_trace c env s
  rcases hmsg : active_status_msg c env s with ⟨r, s3⟩
  rw [hmsg] at hst
  simp only [M.bind, hmsg]
  cases r <;> simp_all [setStatus, restartCount_append]

theorem tail_restart_lte (c' : Charm) (env : Env) (s : St) :
    restartCount (((M.bind (active_status_msg c') (fun msg =>
      M.bind (setStatus (.active msg)) (fun _ =>
        M.pure (LteOutcome.done, c')))) env s).2.trace) = restartCount s.trace := by
  obtain ⟨extra, hst, hr⟩ := active_status_msg_trace c' env s
  rcases hmsg : active_status_msg c' env s with ⟨r, s3⟩
  rw [hmsg] at hst
  simp only [M.bind, hmsg]
  cases r <;> simp_all [setStatus, M.pure, restartCount_append]

theorem tail_do_restart {α : Type} (tail : M α) (env : Env)
    (htail : ∀ s', restartCount ((tail env s').2.trace) = restartCount s'.trace)
    (m : Status) (s' : St) :
    restartCount (((M.bind (M.bind (setStatus m) (fun _ =>
      service_restart SRS_ENB_SERVICE)) (fun _ => tail)) env s').2.trace)
      = restartCount s'.trace + 1 := by
  by_cases hres : (env.run (systemctlCmd "restart" SRS_ENB_SERVICE)).1 = 0
  · have h : M.bind (setStatus m) (fun _ => service_restart SRS_ENB_SERVICE) env s' =
        (.ok (),
         { s' with
             status := m,
             trace := s'.trace ++ [.sh (systemctlCmd "restart" SRS_ENB_SERVICE)] }) := by
      simp [M.bind, setStatus, service_restart, utilsSystemctl_run, hres]
    rw [M_bind_ok _ _ _ _ h, htail]
    have h1 : restartCount [Call.sh (systemctlCmd "restart" SRS_ENB_SERVICE)] = 1 := by decide
    simp [restartCount_append, h1]
  · have h : M.bind (setStatus m) (fun _ => service_restart SRS_ENB_SERVICE) env s' =
        (.error (.calledProcessError (env.run (systemctlCmd "restart" SRS_ENB_SERVICE)).1),
         { s' with
             status := m,
             trace := s'.trace ++ [.sh (systemctlCmd "restart" SRS_ENB_SERVICE)] }) := by
      simp [M.bind, setStatus, service_restart, utilsSystemctl_run, hres]
    rw [M_bind_err _ _ _ _ h]
    have h1 : restartCount [Call.sh (systemctlCmd "restart" SRS_ENB_SERVICE)] = 1 := by decide
    simp [restartCount_append, h1]

theorem handler_core_restart {α : Type} (cmd : String) (m : Status) (tail : M α) (env : Env)
    (htail : ∀ s', restartCount ((tail env s').2.trace) = restartCount s'.trace) (s : St) :
    (queryActive env SRS_ENB_SERVICE ≠ some true →
      restartCount (((M.bind
        (configure_service cmd SRS_ENB_SERVICE_TEMPLATE SRS_ENB_SERVICE_PATH) (fun _ =>
        M.bind (service_active SRS_ENB_SERVICE) (fun active =>
        M.bind (if active then
                  M.bind (setStatus m) (fun _ => service_restart SRS_ENB_SERVICE)
                else M.pure ()) (fun _ => tail)))) env s).2.trace) = restartCount s.trace) ∧
    (queryActive env SRS_ENB_SERVICE = some true →
      s.fs SRS_ENB_SERVICE_TEMPLATE ≠ none →
      (env.run "systemctl daemon-reload").1 = 0 →
      restartCount (((M.bind
        (configure_service cmd SRS_ENB_SERVICE_TEMPLATE SRS_ENB_SERVICE_PATH) (fun _ =>
        M.bind (service_active SRS_ENB_SERVICE) (fun active =>
        M.bind (if active then
                  M.bind (setStatus m) (fun _ => service_restart SRS_ENB_SERVICE)
                else M.pure ()) (fun _ => tail)))) env s).2.trace)
        = restartCount s.trace + 1) ∧
    (queryActive env SRS_ENB_SERVICE = none →
      s.fs SRS_ENB_SERVICE_TEMPLATE ≠ none →
      (env.run "systemctl daemon-reload").1 = 0 →
      ((M.bind
        (configure_service cmd SRS_ENB_SERVICE_TEMPLATE SRS_ENB_SERVICE_PATH) (fun _ =>
        M.bind (service_active SRS_ENB_SERVICE) (fun active =>
        M.bind (if active then
                  M.bind (setStatus m) (fun _ => service_restart SRS_ENB_SERVICE)
                else M.pure ()) (fun _ => tail)))) env s).1
        = .error (.calledProcessError
            (env.run (systemctlCmd "is-active" SRS_ENB_SERVICE)).1)) := by
  have hz1 : restartCount [Call.sh "systemctl daemon-reload"] = 0 := by decide
  have hz2 : restartCount [Call.sh (systemctlCmd "is-active" SRS_ENB_SERVICE)] = 0 := by decide
  have hz12 : restartCount [Call.sh "systemctl daemon-reload",
      Call.sh (systemctlCmd "is-active" SRS_ENB_SERVICE)] = 0 := by decide
  refine ⟨?_, ?_, ?_⟩
  · intro hq
    rcases hfs : s.fs SRS_ENB_SERVICE_TEMPLATE with _ | t
    · have hconf : configure_service cmd SRS_ENB_SERVICE_TEMPLATE SRS_ENB_SERVICE_PATH env s =
          (.error .ioError, s) := by
        rw [configure_service_run]; simp [hfs]
      rw [M_bind_err _ _ _ _ hconf]
    · by_cases hdr : (env.run "systemctl daemon-reload").1 = 0
      · have hconf : configure_service cmd SRS_ENB_SERVICE_TEMPLATE SRS_ENB_SERVICE_PATH env s =
            (.ok (),
             { s with
                 fs := fun q => if q = SRS_ENB_SERVICE_PATH
                       then some (renderCommandTemplate t cmd) else s.fs q,
                 trace := s.trace ++ [.sh "systemctl daemon-reload"] }) := by
          rw [configure_service_run]; simp [hfs, hdr]
        rw [M_bind_ok _ _ _ _ hconf]
        rcases hq0 : queryActive env SRS_ENB_SERVICE with _ | b
        · rw [M_bind_err _ _ _ _ (service_active_of_fail SRS_ENB_SERVICE env _ hq0)]
          simp [restartCount_append, hz1, hz2, hz12]
        · cases b
          · rw [M_bind_ok _ _ _ _ (service_active_of_query SRS_ENB_SERVICE env _ false hq0)]
            simp only [Bool.false_eq_true, if_false, M_bind_pure, htail]
            simp [restartCount_append, hz1, hz2, hz12]
          · exact absurd hq0 hq
      · have hconf : configure_service cmd SRS_ENB_SERVICE_TEMPLATE SRS_ENB_SERVICE_PATH env s =
            (.error (.calledProcessError (env.run "systemctl daemon-reload").1),
             { s with
                 fs := fun q => if q = SRS_ENB_SERVICE_PATH
                       then some (renderCommandTemplate t cmd) else s.fs q,
                 trace := s.trace ++ [.sh "systemctl daemon-reload"] }) := by
          rw [configure_service_run]; simp [hfs, hdr]
        rw [M_bind_err _ _ _ _ hconf]
        simp [restartCount_append, hz1]
  · intro hq hfs0 hdr
    rcases hfs : s.fs SRS_ENB_SERVICE_TEMPLATE with _ | t
    · exact absurd hfs hfs0
    · have hconf : configure_service cmd SRS_ENB_SERVICE_TEMPLATE SRS_ENB_SERVICE_PATH env s =
          (.ok (),
           { s with
               fs := fun q => if q = SRS_ENB_SERVICE_PATH
                     then some (renderCommandTemplate t cmd) else s.fs q,
               trace := s.trace ++ [.sh "systemctl daemon-reload"] }) := by
        rw [configure_service_run]; simp [hfs, hdr]
      rw [M_bind_ok _ _ _ _ hconf,
        M_bind_ok _ _ _ _ (service_active_of_query SRS_ENB_SERVICE env _ true hq)]
      simp only [if_true, tail_do_restart tail env htail m]
      simp [restartCount_append, hz1, hz2, hz12]
  · intro hq hfs0 hdr
    rcases hfs : s.fs SRS_ENB_SERVICE_TEMPLATE with _ | t
    · exact absurd hfs hfs0
    · have hconf : configure_service cmd SRS_ENB_SERVICE_TEMPLATE SRS_ENB_SERVICE_PATH env s =
          (.ok (),
           { s with
               fs := fun q => if q = SRS_ENB_SERVICE_PATH
                     then some (renderCommandTemplate t cmd) else s.fs q,
               trace := s.trace ++ [.sh "systemctl daemon-reload"] }) := by
        rw [configure_service_run]; simp [hfs, hdr]
      rw [M_bind_ok _ _ _ _ hconf,
        M_bind_err _ _ _ _ (service_active_of_fail SRS_ENB_SERVICE env _ hq)]

/-- C3 amended: both the config-changed and the lte-core-available
handler issue zero restart invocations whenever the is-active query does
not answer active, and exactly one restart per trigger when it answers
active (given the preceding render and daemon-reload succeed); but the
not-active path is a silent no-op only when the query returns its answer
with exit status 0 — when the query itself exits nonzero, as systemd's
is-active does for every unit that is not active, utils.service_active
propagates the CalledProcessError and the handler errors out instead of
completing. -/
theorem claimC3_restart_if_active (env : Env) (c : Charm) (s : St) :
    ((queryActive env SRS_ENB_SERVICE ≠ some true →
        restartCount ((on_config_changed c env env s).2.trace) = restartCount s.trace) ∧
     (queryActive env SRS_ENB_SERVICE = some true →
        s.fs SRS_ENB_SERVICE_TEMPLATE ≠ none →
        (env.run "systemctl daemon-reload").1 = 0 →
        restartCount ((on_config_changed c env env s).2.trace) = restartCount s.trace + 1) ∧
     (queryActive env SRS_ENB_SERVICE = none →
        s.fs SRS_ENB_SERVICE_TEMPLATE ≠ none →
        (env.run "systemctl daemon-reload").1 = 0 →
        (on_config_changed c env env s).1 =
          .error (.calledProcessError
            (env.run (systemctlCmd "is-active" SRS_ENB_SERVICE)).1))) ∧
    (∀ (data : String → String) (mme : String), c.isLeader = true → c.replicas = some data →
      ((queryActive env SRS_ENB_SERVICE ≠ some true →
          restartCount ((on_lte_core_available c mme env env s).2.trace)
            = restartCount s.trace) ∧
       (queryActive env SRS_ENB_SERVICE = some true →
          s.fs SRS_ENB_SERVICE_TEMPLATE ≠ none →
          (env.run "systemctl daemon-reload").1 = 0 →
          restartCount ((on_lte_core_available c mme env env s).2.trace)
            = restartCount s.trace + 1) ∧
       (queryActive env SRS_ENB_SERVICE = none →
          s.fs SRS_ENB_SERVICE_TEMPLATE ≠ none →
          (env.run "systemctl daemon-reload").1 = 0 →
          (on_lte_core_available c mme env env s).1 =
            .error (.calledProcessError
              (env.run (systemctlCmd "is-active" SRS_ENB_SERVICE)).1)))) := by
  constructor
  · exact handler_core_restart (getSrsenbCommand c env) (.maintenance "Reloading srsenb")
      (M.bind (active_status_msg c) (fun msg => setStatus (.active msg))) env
      (tail_restart_config c env) s
  · intro data mme hL hR
    have hred : on_lte_core_available c mme env =
        M.bind (configure_srsenb_service
          { c with replicas := some (fun key =>
              if key = "mme_ipv4_address" then jsonDumps mme else data key) } env) (fun _ =>
        M.bind (service_active SRS_ENB_SERVICE) (fun active =>
        M.bind (if active then
                  M.bind (setStatus (.maintenance "Reloading srsenb.")) (fun _ =>
                    service_restart SRS_ENB_SERVICE)
                else M.pure ()) (fun _ =>
        M.bind (active_status_msg
          { c with replicas := some (fun key =>
              if key = "mme_ipv4_address" then jsonDumps mme else data key) }) (fun msg =>
        M.bind (setStatus (.active msg)) (fun _ =>
        M.pure (.done,
          { c with replicas := some (fun key =>
              if key = "mme_ipv4_address" then jsonDumps mme else data key) })))))) := by
      unfold on_lte_core_available
      rw [hL, hR]
      simp
    rw [hred]
    exact handler_core_restart
      (getSrsenbCommand
        { c with replicas := some (fun key =>
            if key = "mme_ipv4_address" then jsonDumps mme else data key) } env)
      (.maintenance "Reloading srsenb.")
      (M.bind (active_status_msg
        { c with replicas := some (fun key =>
            if key = "mme_ipv4_address" then jsonDumps mme else data key) }) (fun msg =>
        M.bind (setStatus (.active msg)) (fun _ =>
        M.pure (LteOutcome.done,
          { c with replicas := some (fun key =>
              if key = "mme_ipv4_address" then jsonDumps mme else data key) })))) env
      (tail_restart_lte
        { c with replicas := some (fun key =>
            if key = "mme_ipv4_address" then jsonDumps mme else data key) } env) s

theorem claimC3_restart_if_active_witness :
    restartCount ((on_config_changed charmScenario envEnbActive envEnbActive stBoth).2.trace) =
      restartCount stBoth.trace + 1 ∧
    (on_config_changed charmScenario envEnbQueryFails envEnbQueryFails stBoth).1 =
      .error (.calledProcessError 3) :=
  ⟨(claimC3_restart_if_active envEnbActive charmScenario stBoth).1.2.1 (by decide) (by decide)
     (by decide),
   (claimC3_restart_if_active envEnbQueryFails charmScenario stBoth).1.2.2 (by decide)
     (by decide) (by decide)⟩

/-- C3 counterexample: in the realistic not-active state — the
`systemctl is-active srsenb` query exits nonzero, as systemd reports for
every unit that is not active — the config-changed handler is not a
no-op: it issues zero restart calls but propagates the
CalledProcessError raised by shell, so the not-active path errors
instead of completing. -/
theorem claimC3_counterexample :
    (on_config_changed charmScenario envEnbQueryFails envEnbQueryFails stBoth).1 =
      Except.error (.calledProcessError 3) ∧
    restartCount
      ((on_config_changed charmScenario envEnbQueryFails envEnbQueryFails stBoth).2.trace)
      = 0 := by
  refine ⟨rfl, ?_⟩
  decide
